import Mathlib

/-
Shallow embedding of the AirSenti acquisition and detection core:
the anomaly detection service and the OpenSky client module.
Numeric JS values are modelled as rationals, nullable fields as Option,
and the module level mutable state (history map, response cache, backoff
tracking) as explicit state passed through the functions.
-/

namespace AirSenti

/-- Severity levels of a flight anomaly, as in the shared type definitions. -/
inductive Severity
  | low
  | medium
  | high
  | critical
deriving DecidableEq, Repr

/-- Anomaly categories, as in the shared type definitions. -/
inductive AnomalyType
  | altitude_drop
  | holding_pattern
  | emergency_squawk
  | route_deviation
  | rapid_descent
  | unusual_speed
  | go_around
  | diversion
deriving DecidableEq, Repr

/-- One aircraft state vector, mirroring the Aircraft interface of the shared
type definitions. Numeric fields are rationals, nullable fields are Option. -/
structure Aircraft where
  icao24 : String
  callsign : Option String
  origin_country : String
  longitude : Option ℚ
  latitude : Option ℚ
  baro_altitude : Option ℚ
  geo_altitude : Option ℚ
  velocity : Option ℚ
  true_track : Option ℚ
  vertical_rate : Option ℚ
  on_ground : Bool
  squawk : Option String
  spi : Bool
  position_source : ℚ
  last_contact : ℚ
  time_position : Option ℚ
  category : Option ℚ
deriving DecidableEq, Repr

/-- A detected anomaly. The randomly generated id, the wall clock timestamp
and the message text of the source record carry no logic and are omitted;
the fields consulted by the verified properties are kept. -/
structure FlightAnomaly where
  flight_icao24 : String
  callsign : Option String
  type : AnomalyType
  severity : Severity
  location : ℚ × ℚ
deriving DecidableEq, Repr

/-- Emergency squawk table from the shared type definitions. -/
def EMERGENCY_SQUAWKS (code : String) : Option String :=
  if code = "7500" then some "Hijacking"
  else if code = "7600" then some "Radio Failure"
  else if code = "7700" then some "General Emergency"
  else none

def HISTORY_MAX_SIZE : ℕ := 100

def HISTORY_RETENTION_MS : ℚ := 30 * 60 * 1000

def RAPID_ALTITUDE_DROP_FT_PER_MIN : ℚ := -3000

def CRITICAL_VERTICAL_RATE_FPM : ℚ := -4000

def UNUSUALLY_SLOW_KTS : ℚ := 80

def UNUSUALLY_FAST_KTS : ℚ := 600

def HOLDING_PATTERN_TURNS : ℚ := 2

/-- Function addToHistory of the detection service, with the wall clock passed
explicitly: the argument now stands for the JS milliseconds clock divided by
1000. The inserted entry gets now as its last contact time, old entries are
filtered by the age cutoff, then the window is trimmed to the size cap. -/
def addToHistory (now : ℚ) (history : List Aircraft) (aircraft : Aircraft) :
    List Aircraft :=
  let pushed := history ++ [{ aircraft with last_contact := now }]
  let cutoffTime := now - HISTORY_RETENTION_MS / 1000
  let filtered := pushed.filter (fun a => cutoffTime < a.last_contact)
  if HISTORY_MAX_SIZE < filtered.length then
    filtered.drop (filtered.length - HISTORY_MAX_SIZE)
  else
    filtered

/-- Detector for emergency squawk codes. A falsy squawk field (absent or the
empty string) yields nothing; otherwise the code is looked up in the fixed
emergency table. -/
def detectEmergencySquawk (aircraft : Aircraft) : Option FlightAnomaly :=
  match aircraft.squawk with
  | none => none
  | some code =>
    if code = "" then none
    else
      match EMERGENCY_SQUAWKS code with
      | some _ =>
        some { flight_icao24 := aircraft.icao24
               callsign := aircraft.callsign
               type := AnomalyType.emergency_squawk
               severity := Severity.critical
               location := (aircraft.latitude.getD 0, aircraft.longitude.getD 0) }
      | none => none

/-- Detector for rapid altitude changes: an instantaneous vertical rate branch
and a derivative branch over the two most recent history samples. -/
def detectAltitudeAnomaly (aircraft : Aircraft) (history : List Aircraft) :
    Option FlightAnomaly :=
  if aircraft.on_ground then none else
  match aircraft.vertical_rate with
  | none => none
  | some vr =>
    let verticalRateFpm := vr * (19685 / 100 : ℚ)
    if verticalRateFpm < CRITICAL_VERTICAL_RATE_FPM then
      some { flight_icao24 := aircraft.icao24
             callsign := aircraft.callsign
             type := AnomalyType.rapid_descent
             severity := Severity.high
             location := (aircraft.latitude.getD 0, aircraft.longitude.getD 0) }
    else if 2 ≤ history.length then
      match aircraft.baro_altitude, history.get? (history.length - 2) with
      | some alt, some previousState =>
        match previousState.baro_altitude with
        | some prevAlt =>
          let altitudeChange := (alt - prevAlt) * (3281 / 1000 : ℚ)
          let timeChange := (aircraft.last_contact - previousState.last_contact) / 60
          if 0 < timeChange then
            let rateOfChange := altitudeChange / timeChange
            if rateOfChange < RAPID_ALTITUDE_DROP_FT_PER_MIN then
              some { flight_icao24 := aircraft.icao24
                     callsign := aircraft.callsign
                     type := AnomalyType.altitude_drop
                     severity := Severity.high
                     location := (aircraft.latitude.getD 0, aircraft.longitude.getD 0) }
            else none
          else none
        | none => none
      | _, _ => none
    else none

/-- Normalization of a heading difference as written in the source: subtract a
full turn when above 180, add a full turn when below minus 180. -/
def normalizeHeadingDelta (d : ℚ) : ℚ :=
  let d1 := if 180 < d then d - 360 else d
  if d1 < -180 then d1 + 360 else d1

/-- One iteration of the holding pattern loop. The accumulator holds the last
seen heading, the running signed total and the significant turn count; the
last heading is replaced by the current sample at the end of every step. -/
def holdingStep (acc : Option ℚ × ℚ × ℕ) (currentHeading : Option ℚ) :
    Option ℚ × ℚ × ℕ :=
  match acc, currentHeading with
  | (some lastHeading, total, turns), some ch =>
    let headingChange := normalizeHeadingDelta (ch - lastHeading)
    (some ch, total + headingChange,
      if 30 < |headingChange| then turns + 1 else turns)
  | (_, total, turns), ch => (ch, total, turns)

/-- Detector for holding patterns: needs at least 20 history samples, scans
the most recent 30, accumulates normalized heading deltas and fires when the
accumulated magnitude reaches two full turns. -/
def detectHoldingPattern (aircraft : Aircraft) (history : List Aircraft) :
    Option FlightAnomaly :=
  if history.length < 20 then none
  else if aircraft.on_ground then none
  else
    let recentHistory := history.drop (history.length - 30)
    match recentHistory.map (fun a => a.true_track) with
    | [] => none
    | h0 :: rest =>
      let result := rest.foldl holdingStep (h0, 0, 0)
      let totalHeadingChange := result.2.1
      let fullCircles := |totalHeadingChange| / 360
      if HOLDING_PATTERN_TURNS ≤ fullCircles then
        some { flight_icao24 := aircraft.icao24
               callsign := aircraft.callsign
               type := AnomalyType.holding_pattern
               severity := Severity.medium
               location := (aircraft.latitude.getD 0, aircraft.longitude.getD 0) }
      else none

/-- Detector for unusual ground speed. The low speed branch additionally
requires a truthy barometric altitude above 3000. -/
def detectSpeedAnomaly (aircraft : Aircraft) : Option FlightAnomaly :=
  if aircraft.on_ground then none else
  match aircraft.velocity with
  | none => none
  | some v =>
    let speedKts := v * (1944 / 1000 : ℚ)
    if UNUSUALLY_FAST_KTS < speedKts then
      some { flight_icao24 := aircraft.icao24
             callsign := aircraft.callsign
             type := AnomalyType.unusual_speed
             severity := Severity.medium
             location := (aircraft.latitude.getD 0, aircraft.longitude.getD 0) }
    else
      match aircraft.baro_altitude with
      | some alt =>
        if speedKts < UNUSUALLY_SLOW_KTS ∧ ¬ alt = 0 ∧ 3000 < alt then
          some { flight_icao24 := aircraft.icao24
                 callsign := aircraft.callsign
                 type := AnomalyType.unusual_speed
                 severity := Severity.low
                 location := (aircraft.latitude.getD 0, aircraft.longitude.getD 0) }
        else none
      | none => none

/-- One iteration of the go around scan over one consecutive pair of samples.
The three flags are updated in the order of the source: descent seen, low
altitude reached while descending, climbing after the low point. -/
def goAroundStep (st : Bool × Bool × Bool) (pc : Aircraft × Aircraft) :
    Bool × Bool × Bool :=
  match pc.1.baro_altitude, pc.2.baro_altitude with
  | some prevAlt, some currAlt =>
    let altFt := currAlt * (3281 / 1000 : ℚ)
    let wasDescending := st.1 || decide (currAlt < prevAlt)
    let reachedLowAltitude := st.2.1 || (decide (altFt < 1500) && wasDescending)
    let isNowClimbing := st.2.2 || (decide (prevAlt < currAlt) && reachedLowAltitude)
    (wasDescending, reachedLowAltitude, isNowClimbing)
  | _, _ => st

/-- Detector for go around events: needs at least 10 history samples, scans
consecutive pairs of the most recent 15, and additionally requires a truthy
vertical rate above 2. -/
def detectGoAround (aircraft : Aircraft) (history : List Aircraft) :
    Option FlightAnomaly :=
  if history.length < 10 then none
  else
    let recent := history.drop (history.length - 15)
    let scan := (recent.zip recent.tail).foldl goAroundStep (false, false, false)
    match aircraft.vertical_rate with
    | some vr =>
      if scan.1 && scan.2.1 && scan.2.2 then
        if ¬ vr = 0 ∧ 2 < vr then
          some { flight_icao24 := aircraft.icao24
                 callsign := aircraft.callsign
                 type := AnomalyType.go_around
                 severity := Severity.medium
                 location := (aircraft.latitude.getD 0, aircraft.longitude.getD 0) }
        else none
      else none
    | none => none

/-- Per aircraft history windows, the module level map keyed by icao24. -/
abbrev HistoryMap := List (String × List Aircraft)

/-- Function getHistory of the detection service. -/
def getHistory (m : HistoryMap) (icao24 : String) : List Aircraft :=
  match m.find? (fun p => p.1 = icao24) with
  | some p => p.2
  | none => []

/-- Map update with JS map semantics: replace the entry when the key is
present, append otherwise. -/
def setHistory (m : HistoryMap) (icao24 : String) (v : List Aircraft) :
    HistoryMap :=
  if m.any (fun p => p.1 = icao24) then
    m.map (fun p => if p.1 = icao24 then (icao24, v) else p)
  else m ++ [(icao24, v)]

/-- The fixed detector pipeline run over one aircraft, collecting the emitted
anomalies in order. -/
def runDetectors (aircraft : Aircraft) (history : List Aircraft) :
    List FlightAnomaly :=
  [detectEmergencySquawk aircraft,
   detectAltitudeAnomaly aircraft history,
   detectHoldingPattern aircraft history,
   detectSpeedAnomaly aircraft,
   detectGoAround aircraft history].filterMap id

/-- Function detectAnomalies of the detection service: aircraft without both
coordinates are skipped entirely, otherwise the state is recorded into
history and the detector pipeline runs over the updated window. -/
def detectAnomalies (now : ℚ) (m : HistoryMap) (aircraft : Aircraft) :
    List FlightAnomaly × HistoryMap :=
  match aircraft.latitude, aircraft.longitude with
  | some _, some _ =>
    let newHistory := addToHistory now (getHistory m aircraft.icao24) aircraft
    let m' := setHistory m aircraft.icao24 newHistory
    (runDetectors aircraft newHistory, m')
  | _, _ => ([], m)

/-- Severity rank used by the batch sort comparator. -/
def severityOrder : Severity → ℕ
  | Severity.critical => 0
  | Severity.high => 1
  | Severity.medium => 2
  | Severity.low => 3

/-- Accumulation loop of detectAnomaliesBatch before the final sort. -/
def batchCollect (now : ℚ) (m : HistoryMap) (aircraftList : List Aircraft) :
    List FlightAnomaly × HistoryMap :=
  aircraftList.foldl
    (fun acc ac =>
      let r := detectAnomalies now acc.2 ac
      (acc.1 ++ r.1, r.2))
    ([], m)

/-- Comparator relation of the batch sort: ascending severity rank. -/
def severityLE (a b : FlightAnomaly) : Prop :=
  severityOrder a.severity ≤ severityOrder b.severity

instance : DecidableRel severityLE :=
  fun a b => inferInstanceAs (Decidable (severityOrder a.severity ≤ severityOrder b.severity))

instance : IsTotal FlightAnomaly severityLE :=
  ⟨fun a b => Nat.le_total (severityOrder a.severity) (severityOrder b.severity)⟩

instance : IsTrans FlightAnomaly severityLE :=
  ⟨fun _ _ _ h1 h2 => Nat.le_trans h1 h2⟩

/-- Function detectAnomaliesBatch: run detection over every aircraft in order
and sort the accumulated anomalies by severity. The JS array sort is required
by the language standard to be stable, so it is embedded as a stable
insertion sort with the same comparator. -/
def detectAnomaliesBatch (now : ℚ) (m : HistoryMap) (aircraftList : List Aircraft) :
    List FlightAnomaly × HistoryMap :=
  let collected := batchCollect now m aircraftList
  (List.insertionSort severityLE collected.1, collected.2)

/-- Result record of getAnomalyStats: the string keyed record of the source
split into the fixed severity keys, the total and the per type counts. -/
structure AnomalyStats where
  total : ℕ
  critical : ℕ
  high : ℕ
  medium : ℕ
  low : ℕ
  byType : AnomalyType → ℕ

/-- Increment of the severity field selected by the anomaly. -/
def bumpSeverity (st : AnomalyStats) : Severity → AnomalyStats
  | Severity.critical => { st with critical := st.critical + 1 }
  | Severity.high => { st with high := st.high + 1 }
  | Severity.medium => { st with medium := st.medium + 1 }
  | Severity.low => { st with low := st.low + 1 }

/-- One iteration of the getAnomalyStats loop. -/
def statsStep (st : AnomalyStats) (anomaly : FlightAnomaly) : AnomalyStats :=
  let st1 := bumpSeverity st anomaly.severity
  { st1 with
    byType := fun t => if t = anomaly.type then st1.byType anomaly.type + 1 else st1.byType t }

/-- Function getAnomalyStats: the total is initialized to the list length and
the loop bumps one severity counter and one type counter per anomaly. -/
def getAnomalyStats (anomalies : List FlightAnomaly) : AnomalyStats :=
  anomalies.foldl statsStep
    { total := anomalies.length, critical := 0, high := 0, medium := 0, low := 0,
      byType := fun _ => 0 }

/-- JSON scalar values appearing in a raw positional state record. An out of
range read of a JS array is modelled by the undef constructor. -/
inductive JsonValue
  | str (s : String)
  | num (q : ℚ)
  | bool (b : Bool)
  | null
  | undef
deriving DecidableEq, Repr

/-- JS truthiness of a scalar value. -/
def JsonValue.truthy : JsonValue → Bool
  | JsonValue.str s => s != ""
  | JsonValue.num q => q != 0
  | JsonValue.bool b => b
  | JsonValue.null => false
  | JsonValue.undef => false

/-- Positional field read of a JS array: out of range reads yield undef. -/
def fieldAt (state : List JsonValue) (i : ℕ) : JsonValue :=
  (state.get? i).getD JsonValue.undef

/-- Result record of parseStateVector. The source casts each raw field with a
compile time only assertion, so at runtime the field holds whatever value sat
at that position; the fields therefore keep the raw scalar type here. Only
the callsign field is actually computed. -/
structure RawAircraft where
  icao24 : JsonValue
  callsign : Option String
  origin_country : JsonValue
  time_position : JsonValue
  last_contact : JsonValue
  longitude : JsonValue
  latitude : JsonValue
  baro_altitude : JsonValue
  on_ground : JsonValue
  velocity : JsonValue
  true_track : JsonValue
  vertical_rate : JsonValue
  geo_altitude : JsonValue
  squawk : JsonValue
  spi : JsonValue
  position_source : JsonValue
  category : JsonValue
deriving DecidableEq, Repr

/-- The callsign expression of parseStateVector: a truthy field is cast to a
string and trimmed, a falsy field becomes null. A truthy value that is not a
string has no trim method at runtime, which crashes the JS function; this is
modelled by the none result of the outer Option. -/
def parseCallsign : JsonValue → Option (Option String)
  | JsonValue.str s => if s = "" then some none else some (some s.trim)
  | JsonValue.num q => if q = 0 then some none else none
  | JsonValue.bool b => if b then none else some none
  | JsonValue.null => some none
  | JsonValue.undef => some none

/-- Function parseStateVector of the OpenSky client: a purely positional
mapping with no validation of field count or field types. Index 12, the
sensors array, is skipped as in the source. -/
def parseStateVector (state : List JsonValue) : Option RawAircraft :=
  match parseCallsign (fieldAt state 1) with
  | none => none
  | some cs =>
    some { icao24 := fieldAt state 0
           callsign := cs
           origin_country := fieldAt state 2
           time_position := fieldAt state 3
           last_contact := fieldAt state 4
           longitude := fieldAt state 5
           latitude := fieldAt state 6
           baro_altitude := fieldAt state 7
           on_ground := fieldAt state 8
           velocity := fieldAt state 9
           true_track := fieldAt state 10
           vertical_rate := fieldAt state 11
           geo_altitude := fieldAt state 13
           squawk := fieldAt state 14
           spi := fieldAt state 15
           position_source := fieldAt state 16
           category := fieldAt state 17 }

/-- String test on a scalar value. -/
def JsonValue.isStr : JsonValue → Bool
  | JsonValue.str _ => true
  | _ => false

/-- Number test on a scalar value. -/
def JsonValue.isNum : JsonValue → Bool
  | JsonValue.num _ => true
  | _ => false

/-- Flag test on a scalar value. -/
def JsonValue.isFlag : JsonValue → Bool
  | JsonValue.bool _ => true
  | _ => false

/-- Null test on a scalar value. -/
def JsonValue.isNull : JsonValue → Bool
  | JsonValue.null => true
  | _ => false

/-- Type check of one positional field against the documented 18 field schema
of the OpenSkyStateVector interface. Index 12 holds the sensors array, which
the parser skips; array values lie outside the scalar embedding, so that
index is left unconstrained. -/
def schemaFieldOk (i : ℕ) (v : JsonValue) : Bool :=
  if i = 0 then v.isStr
  else if i = 1 then v.isStr || v.isNull
  else if i = 2 then v.isStr
  else if i = 3 then v.isNum || v.isNull
  else if i = 4 then v.isNum
  else if i = 5 then v.isNum || v.isNull
  else if i = 6 then v.isNum || v.isNull
  else if i = 7 then v.isNum || v.isNull
  else if i = 8 then v.isFlag
  else if i = 9 then v.isNum || v.isNull
  else if i = 10 then v.isNum || v.isNull
  else if i = 11 then v.isNum || v.isNull
  else if i = 12 then true
  else if i = 13 then v.isNum || v.isNull
  else if i = 14 then v.isStr || v.isNull
  else if i = 15 then v.isFlag
  else if i = 16 then v.isNum
  else if i = 17 then v.isNum || v.isNull
  else false

/-- Conformance of a raw record to the documented 18 field positional
schema: exactly 18 fields, each of the documented type. -/
def stateWellTyped (state : List JsonValue) : Bool :=
  state.length == 18 && (List.range 18).all (fun i => schemaFieldOk i (fieldAt state i))

/-- Specification reading of the normalizer contract, stated for comparison
with the source function: parsing fails with a malformed record error when
the field count or the field types do not match the documented positional
schema, and otherwise returns the corresponding state record with the
callsign trimmed and null coalesced. -/
def parseStateVector_spec (state : List JsonValue) : Except String RawAircraft :=
  if stateWellTyped state then
    Except.ok
      { icao24 := fieldAt state 0
        callsign :=
          (match fieldAt state 1 with
           | JsonValue.str s => if s = "" then none else some s.trim
           | _ => none)
        origin_country := fieldAt state 2
        time_position := fieldAt state 3
        last_contact := fieldAt state 4
        longitude := fieldAt state 5
        latitude := fieldAt state 6
        baro_altitude := fieldAt state 7
        on_ground := fieldAt state 8
        velocity := fieldAt state 9
        true_track := fieldAt state 10
        vertical_rate := fieldAt state 11
        geo_altitude := fieldAt state 13
        squawk := fieldAt state 14
        spi := fieldAt state 15
        position_source := fieldAt state 16
        category := fieldAt state 17 }
  else Except.error "MalformedRecordError"

/-- One response cache entry: the last successful payload and its fetch
timestamp. -/
structure CacheEntry where
  data : List RawAircraft
  timestamp : ℚ
deriving DecidableEq, Repr

/-- Module level mutable state of the OpenSky client: the response cache, the
backoff deadline and the consecutive failure counter used by the exponential
call site. Time is the JS milliseconds clock. -/
structure ClientState where
  responseCache : List (String × CacheEntry)
  backoffUntil : ℚ
  consecutiveFailures : ℕ
deriving DecidableEq, Repr

def CACHE_TTL_MS : ℚ := 15000

def STALE_TTL_MS : ℚ := 300000

def BACKOFF_SECONDS : ℚ := 60

/-- Function getCached: a fresh entry below the fresh ttl, a stale entry
below the stale ttl, nothing beyond. -/
def getCached (st : ClientState) (key : String) (now : ℚ) :
    Option (List RawAircraft × Bool) :=
  match st.responseCache.find? (fun p => p.1 = key) with
  | none => none
  | some p =>
    let age := now - p.2.timestamp
    if age < CACHE_TTL_MS then some (p.2.data, true)
    else if age < STALE_TTL_MS then some (p.2.data, false)
    else none

/-- Function setCache: wholesale replacement of the entry for the key. -/
def setCache (st : ClientState) (key : String) (data : List RawAircraft)
    (now : ℚ) : ClientState :=
  { st with responseCache :=
      if st.responseCache.any (fun p => p.1 = key) then
        st.responseCache.map (fun p => if p.1 = key then (key, ⟨data, now⟩) else p)
      else st.responseCache ++ [(key, ⟨data, now⟩)] }

/-- The recurring JS expression reading the cached data or else the empty
list. -/
def cachedData : Option (List RawAircraft × Bool) → List RawAircraft
  | some (d, _) => d
  | none => []

/-- Freshness flag of a cache lookup result. -/
def isFresh : Option (List RawAircraft × Bool) → Bool
  | some (_, fresh) => fresh
  | none => false

/-- Outcome of the one upstream round trip a call may perform: an http 429,
another non ok status (thrown and then caught), a network level exception, an
ok response whose states field is null, or an ok response with a raw states
array. -/
inductive FetchOutcome
  | status429
  | httpError
  | netError
  | okNull
  | okStates (raw : List (List JsonValue))
deriving DecidableEq, Repr

/-- Result of one modelled client call: the returned payload, the client
state after the call, and whether the call reached the network. -/
structure FetchResult where
  payload : List RawAircraft
  state : ClientState
  network : Bool
deriving DecidableEq, Repr

/-- Method getAllStates of the OpenSky client, with the wall clock and the
upstream outcome passed explicitly. The in flight deduplication map only
coalesces concurrent calls and is the identity on this sequential model. A
map over the raw states in which one parse crashes lands the whole call in
the catch clause, which serves the cached data. -/
def getAllStates (st : ClientState) (now : ℚ) (outcome : FetchOutcome) :
    FetchResult :=
  let cached := getCached st "all_states" now
  if isFresh cached then
    { payload := cachedData cached, state := st, network := false }
  else if now < st.backoffUntil then
    { payload := cachedData cached, state := st, network := false }
  else
    match outcome with
    | FetchOutcome.status429 =>
      { payload := cachedData cached
        state := { st with backoffUntil := now + BACKOFF_SECONDS * 1000 }
        network := true }
    | FetchOutcome.httpError =>
      { payload := cachedData cached, state := st, network := true }
    | FetchOutcome.netError =>
      { payload := cachedData cached, state := st, network := true }
    | FetchOutcome.okNull =>
      { payload := [], state := setCache st "all_states" [] now, network := true }
    | FetchOutcome.okStates raw =>
      match raw.mapM parseStateVector with
      | some result =>
        { payload := result, state := setCache st "all_states" result now, network := true }
      | none =>
        { payload := cachedData cached, state := st, network := true }

/-- Cache key of the icao24 lookup: the sorted, comma joined address list. -/
def icaoCacheKey (icao24List : List String) : String :=
  "icao24_" ++ String.intercalate ","
    (List.insertionSort (fun a b : String => a ≤ b) icao24List)

/-- Method getStatesByIcao24, the call site using the exponential backoff
policy. The consecutive failure counter is incremented on a 429 and reset to
zero as soon as a response is ok, before the body is parsed. -/
def getStatesByIcao24 (st : ClientState) (icao24List : List String) (now : ℚ)
    (outcome : FetchOutcome) : FetchResult :=
  let cacheKey := icaoCacheKey icao24List
  let cached := getCached st cacheKey now
  if isFresh cached then
    { payload := cachedData cached, state := st, network := false }
  else if now < st.backoffUntil then
    { payload := cachedData cached, state := st, network := false }
  else
    match outcome with
    | FetchOutcome.status429 =>
      let failures := st.consecutiveFailures + 1
      let waitSeconds := min ((30 : ℚ) * 2 ^ (failures - 1)) 300
      { payload := cachedData cached
        state := { st with consecutiveFailures := failures,
                           backoffUntil := now + waitSeconds * 1000 }
        network := true }
    | FetchOutcome.httpError =>
      { payload := cachedData cached, state := st, network := true }
    | FetchOutcome.netError =>
      { payload := cachedData cached, state := st, network := true }
    | FetchOutcome.okNull =>
      { payload := []
        state := setCache { st with consecutiveFailures := 0 } cacheKey [] now
        network := true }
    | FetchOutcome.okStates raw =>
      match raw.mapM parseStateVector with
      | some result =>
        { payload := result
          state := setCache { st with consecutiveFailures := 0 } cacheKey result now
          network := true }
      | none =>
        { payload := cachedData cached
          state := { st with consecutiveFailures := 0 }
          network := true }

/-- State record with every optional field absent, used to build the concrete
instances on which several theorems are evaluated. -/
def blankAircraft (icao24 : String) : Aircraft :=
  { icao24 := icao24, callsign := none, origin_country := "", longitude := none,
    latitude := none, baro_altitude := none, geo_altitude := none, velocity := none,
    true_track := none, vertical_rate := none, on_ground := false, squawk := none,
    spi := false, position_source := 0, last_contact := 0, time_position := none,
    category := none }

/-- Raw positional record conforming to the documented 18 field schema, used
as concrete input by the parser witness. -/
def goodRecord : List JsonValue :=
  [JsonValue.str "abc123", JsonValue.str " UAL123 ", JsonValue.str "United States",
   JsonValue.num 1000, JsonValue.num 1005, JsonValue.num 10, JsonValue.num 50,
   JsonValue.num 11000, JsonValue.bool false, JsonValue.num 250, JsonValue.num 90,
   JsonValue.num 0, JsonValue.null, JsonValue.num 11050, JsonValue.str "1200",
   JsonValue.bool false, JsonValue.num 0, JsonValue.num 0]

/-- Concrete state squawking the general emergency code at a valid fix. -/
def squawkEmergencyState : Aircraft :=
  { blankAircraft "ade4f7" with
      squawk := some "7700"
      latitude := some 40
      longitude := some (-75) }

/-- Concrete state with an ordinary squawk code at a valid fix. -/
def squawkOrdinaryState : Aircraft :=
  { blankAircraft "ffeeaa" with
      squawk := some "1200"
      latitude := some 1
      longitude := some 2 }

/-- Concrete previous sample for the altitude drop witness. -/
def dropPreviousState : Aircraft :=
  { blankAircraft "drop01" with baro_altitude := some 3000 }

/-- Concrete current state for the altitude drop witness: two thousand meters
lost in one minute. -/
def dropCurrentState : Aircraft :=
  { blankAircraft "drop01" with
      latitude := some 40
      longitude := some (-75)
      baro_altitude := some 1000
      vertical_rate := some 0
      last_contact := 60 }

/-- Small concrete anomaly list for the stats witness. -/
def sampleAnomalies : List FlightAnomaly :=
  [{ flight_icao24 := "a1", callsign := none, type := AnomalyType.emergency_squawk,
     severity := Severity.critical, location := (0, 0) },
   { flight_icao24 := "b2", callsign := some "SPD", type := AnomalyType.unusual_speed,
     severity := Severity.low, location := (1, 1) },
   { flight_icao24 := "c3", callsign := none, type := AnomalyType.unusual_speed,
     severity := Severity.low, location := (2, 2) }]

/-- C4: after every addToHistory call the target window has size at most 100,
contains no entry at or past the 30 minute age bound, and is a suffix of the
age trimmed window, so the age trim runs before the count trim; this holds
for every prior window contents and every inserted state. -/
theorem addToHistory_bounded (now : ℚ) (history : List Aircraft) (aircraft : Aircraft) :
    (addToHistory now history aircraft).length ≤ HISTORY_MAX_SIZE ∧
    (∀ a ∈ addToHistory now history aircraft,
      now - HISTORY_RETENTION_MS / 1000 < a.last_contact) ∧
    (addToHistory now history aircraft) <:+
      ((history ++ [{ aircraft with last_contact := now }]).filter
        (fun a => now - HISTORY_RETENTION_MS / 1000 < a.last_contact)) := by
  refine ⟨?_, ?_, ?_⟩
  · unfold addToHistory
    dsimp only
    split
    · next h =>
      rw [List.length_drop]
      omega
    · next h => omega
  · intro a ha
    unfold addToHistory at ha
    dsimp only at ha
    split at ha
    · have := List.mem_filter.mp (List.mem_of_mem_drop ha)
      simpa using this.2
    · have := List.mem_filter.mp ha
      simpa using this.2
  · unfold addToHistory
    dsimp only
    split
    · exact List.drop_suffix _ _
    · exact List.suffix_refl _

/-- C2: an aircraft missing either coordinate is skipped entirely: detection
returns the empty list and the history map is unchanged, even when other
fields such as an emergency squawk would otherwise fire. -/
theorem detectAnomalies_skips_missing_position (now : ℚ) (m : HistoryMap)
    (aircraft : Aircraft)
    (h : aircraft.latitude = none ∨ aircraft.longitude = none) :
    detectAnomalies now m aircraft = ([], m) := by
  unfold detectAnomalies
  rcases h with h | h
  · rw [h]
  · rw [h]
    cases aircraft.latitude <;> rfl

/-- Witness for C2: a state with an emergency squawk and a longitude but no
latitude yields nothing and leaves the history empty. -/
theorem detectAnomalies_skips_missing_position_witness :
    detectAnomalies 1000 []
      { blankAircraft "abc123" with squawk := some "7700", longitude := some 10 } =
      ([], []) :=
  detectAnomalies_skips_missing_position 1000 [] _ (Or.inl rfl)

theorem statsStep_total (st : AnomalyStats) (a : FlightAnomaly) :
    (statsStep st a).total = st.total := by
  unfold statsStep bumpSeverity
  cases a.severity <;> rfl

theorem statsStep_critical (st : AnomalyStats) (a : FlightAnomaly) :
    (statsStep st a).critical =
      st.critical + (if a.severity = Severity.critical then 1 else 0) := by
  unfold statsStep bumpSeverity
  cases a.severity <;> simp

theorem statsStep_high (st : AnomalyStats) (a : FlightAnomaly) :
    (statsStep st a).high =
      st.high + (if a.severity = Severity.high then 1 else 0) := by
  unfold statsStep bumpSeverity
  cases a.severity <;> simp

theorem statsStep_medium (st : AnomalyStats) (a : FlightAnomaly) :
    (statsStep st a).medium =
      st.medium + (if a.severity = Severity.medium then 1 else 0) := by
  unfold statsStep bumpSeverity
  cases a.severity <;> simp

theorem statsStep_low (st : AnomalyStats) (a : FlightAnomaly) :
    (statsStep st a).low =
      st.low + (if a.severity = Severity.low then 1 else 0) := by
  unfold statsStep bumpSeverity
  cases a.severity <;> simp

theorem statsStep_byType (st : AnomalyStats) (a : FlightAnomaly) (t : AnomalyType) :
    (statsStep st a).byType t = st.byType t + (if a.type = t then 1 else 0) := by
  have hb : (bumpSeverity st a.severity).byType = st.byType := by
    cases a.severity <;> rfl
  unfold statsStep
  dsimp only
  rw [hb]
  by_cases h : t = a.type
  · subst h
    simp
  · rw [if_neg h, if_neg (fun hh => h hh.symm)]
    simp

theorem statsFold_total (l : List FlightAnomaly) (st : AnomalyStats) :
    (l.foldl statsStep st).total = st.total := by
  induction l generalizing st with
  | nil => rfl
  | cons a l ih => rw [List.foldl_cons, ih, statsStep_total]

theorem statsFold_critical (l : List FlightAnomaly) (st : AnomalyStats) :
    (l.foldl statsStep st).critical =
      st.critical + l.countP (fun a => a.severity == Severity.critical) := by
  induction l generalizing st with
  | nil => simp
  | cons a l ih =>
    rw [List.foldl_cons, ih, statsStep_critical, List.countP_cons]
    by_cases h : a.severity = Severity.critical <;> simp [h] <;> omega

theorem statsFold_high (l : List FlightAnomaly) (st : AnomalyStats) :
    (l.foldl statsStep st).high =
      st.high + l.countP (fun a => a.severity == Severity.high) := by
  induction l generalizing st with
  | nil => simp
  | cons a l ih =>
    rw [List.foldl_cons, ih, statsStep_high, List.countP_cons]
    by_cases h : a.severity = Severity.high <;> simp [h] <;> omega

theorem statsFold_medium (l : List FlightAnomaly) (st : AnomalyStats) :
    (l.foldl statsStep st).medium =
      st.medium + l.countP (fun a => a.severity == Severity.medium) := by
  induction l generalizing st with
  | nil => simp
  | cons a l ih =>
    rw [List.foldl_cons, ih, statsStep_medium, List.countP_cons]
    by_cases h : a.severity = Severity.medium <;> simp [h] <;> omega

theorem statsFold_low (l : List FlightAnomaly) (st : AnomalyStats) :
    (l.foldl statsStep st).low =
      st.low + l.countP (fun a => a.severity == Severity.low) := by
  induction l generalizing st with
  | nil => simp
  | cons a l ih =>
    rw [List.foldl_cons, ih, statsStep_low, List.countP_cons]
    by_cases h : a.severity = Severity.low <;> simp [h] <;> omega

theorem statsFold_byType (l : List FlightAnomaly) (st : AnomalyStats) (t : AnomalyType) :
    (l.foldl statsStep st).byType t =
      st.byType t + l.countP (fun a => a.type == t) := by
  induction l generalizing st with
  | nil => simp
  | cons a l ih =>
    rw [List.foldl_cons, ih, statsStep_byType, List.countP_cons]
    by_cases h : a.type = t <;> simp [h] <;> omega

theorem severity_countP_partition (l : List FlightAnomaly) :
    l.countP (fun a => a.severity == Severity.critical) +
      l.countP (fun a => a.severity == Severity.high) +
      l.countP (fun a => a.severity == Severity.medium) +
      l.countP (fun a => a.severity == Severity.low) = l.length := by
  induction l with
  | nil => rfl
  | cons a l ih =>
    simp only [List.countP_cons, List.length_cons]
    cases h : a.severity <;> simp [h] <;> omega

/-- C10: the stats record of getAnomalyStats satisfies total equals the list
length, the four severity counters sum to the total, and each anomaly type
counter equals the number of anomalies of that type in the input. -/
theorem getAnomalyStats_consistent (anomalies : List FlightAnomaly) :
    (getAnomalyStats anomalies).total = anomalies.length ∧
    (getAnomalyStats anomalies).critical + (getAnomalyStats anomalies).high +
        (getAnomalyStats anomalies).medium + (getAnomalyStats anomalies).low =
      (getAnomalyStats anomalies).total ∧
    ∀ t, (getAnomalyStats anomalies).byType t =
      anomalies.countP (fun a => a.type == t) := by
  unfold getAnomalyStats
  refine ⟨statsFold_total _ _, ?_, fun t => by rw [statsFold_byType]; simp⟩
  rw [statsFold_total, statsFold_critical, statsFold_high, statsFold_medium,
    statsFold_low]
  simpa using severity_countP_partition anomalies

/-- Counterexample to C5 as stated: the normalization of the source keeps a
delta of exactly minus 180 degrees, arising from consecutive headings of 180
and 0 degrees, as minus 180, which lies outside the claimed half open
interval from minus 180 exclusive to plus 180 inclusive. -/
theorem holdingStep_minus180_outside_Ioc :
    holdingStep (some 180, 0, 0) (some ((0 : ℚ))) = (some 0, -180, 1) ∧
    normalizeHeadingDelta ((0 : ℚ) - 180) = -180 ∧
    ¬ (-180 < normalizeHeadingDelta ((0 : ℚ) - 180)) := by
  refine ⟨?_, ?_, ?_⟩
  · simp [holdingStep, normalizeHeadingDelta]
    norm_num
  · norm_num [normalizeHeadingDelta]
  · norm_num [normalizeHeadingDelta]

/-- C5 amended: every delta between consecutive headings drawn from the
interval from 0 inclusive to 360 exclusive is normalized into the closed
interval from minus 180 to plus 180 before accumulation (the endpoint minus
180 is kept as is rather than wrapped to plus 180), and a last heading of
350 followed by the samples 10 and 30 adds plus 20 and plus 20 on top of any
previously accumulated total, not minus 340. -/
theorem normalizeHeadingDelta_range_and_wraparound :
    (∀ h1 h2 : ℚ, 0 ≤ h1 → h1 < 360 → 0 ≤ h2 → h2 < 360 →
      -180 ≤ normalizeHeadingDelta (h2 - h1) ∧
        normalizeHeadingDelta (h2 - h1) ≤ 180) ∧
    (∀ (total : ℚ) (turns : ℕ),
      holdingStep (holdingStep (some 350, total, turns) (some 10)) (some 30) =
        (some 30, total + 40, turns)) := by
  constructor
  · intro h1 h2 a b c d
    unfold normalizeHeadingDelta
    dsimp only
    split <;> split <;> constructor <;> linarith
  · intro total turns
    have e1 : normalizeHeadingDelta ((10 : ℚ) - 350) = 20 := by
      norm_num [normalizeHeadingDelta]
    have e2 : normalizeHeadingDelta ((30 : ℚ) - 10) = 20 := by
      norm_num [normalizeHeadingDelta]
    simp only [holdingStep, e1, e2]
    norm_num
    ring

/-- Witness for the amended C5 at concrete inputs. -/
theorem normalizeHeadingDelta_range_and_wraparound_witness :
    (-180 ≤ normalizeHeadingDelta ((10 : ℚ) - 350) ∧
      normalizeHeadingDelta ((10 : ℚ) - 350) ≤ 180) ∧
    holdingStep (holdingStep (some 350, (5 : ℚ), 0) (some 10)) (some 30) =
      (some 30, (45 : ℚ), 0) := by
  constructor
  · exact normalizeHeadingDelta_range_and_wraparound.1 350 10
      (by norm_num) (by norm_num) (by norm_num) (by norm_num)
  · have := normalizeHeadingDelta_range_and_wraparound.2 5 0
    norm_num at this
    exact this

/-- Counterexample to C1 as stated: a record with a single field, hence a
field count that does not match the 18 field positional schema, is not
rejected by the parser, which silently reads every missing field as
undefined and returns a state record; the specification contract rejects the
same record with a malformed record error. -/
theorem parseStateVector_accepts_malformed :
    parseStateVector [JsonValue.str "abc123"] =
      some { icao24 := JsonValue.str "abc123", callsign := none,
             origin_country := JsonValue.undef, time_position := JsonValue.undef,
             last_contact := JsonValue.undef, longitude := JsonValue.undef,
             latitude := JsonValue.undef, baro_altitude := JsonValue.undef,
             on_ground := JsonValue.undef, velocity := JsonValue.undef,
             true_track := JsonValue.undef, vertical_rate := JsonValue.undef,
             geo_altitude := JsonValue.undef, squawk := JsonValue.undef,
             spi := JsonValue.undef, position_source := JsonValue.undef,
             category := JsonValue.undef } ∧
    parseStateVector_spec [JsonValue.str "abc123"] =
      Except.error "MalformedRecordError" := by
  constructor <;> rfl

/-- C1 amended: parseStateVector performs no schema validation and never
raises a malformed record error; it fails only on the one runtime crash, a
truthy non string callsign field, and otherwise maps any record positionally
with silent coercion, and on every record conforming to the documented 18
field schema it returns the corresponding state record with the callsign
trimmed and null coalesced, agreeing with the specification contract. -/
theorem parseStateVector_silently_coerces (state : List JsonValue) :
    (parseStateVector state = none ↔
      (fieldAt state 1).truthy = true ∧ (fieldAt state 1).isStr = false) ∧
    (stateWellTyped state = true →
      parseStateVector state = (parseStateVector_spec state).toOption) := by
  constructor
  · cases h : fieldAt state 1 with
    | str s =>
      by_cases hs : s = "" <;>
        simp [parseStateVector, parseCallsign, JsonValue.truthy, JsonValue.isStr, h, hs]
    | num q =>
      by_cases hq : q = 0 <;>
        simp [parseStateVector, parseCallsign, JsonValue.truthy, JsonValue.isStr, h, hq]
    | bool b =>
      cases b <;>
        simp [parseStateVector, parseCallsign, JsonValue.truthy, JsonValue.isStr, h]
    | null =>
      simp [parseStateVector, parseCallsign, JsonValue.truthy, JsonValue.isStr, h]
    | undef =>
      simp [parseStateVector, parseCallsign, JsonValue.truthy, JsonValue.isStr, h]
  · intro hwt
    have hall : state.length = 18 ∧
        ∀ i ∈ List.range 18, schemaFieldOk i (fieldAt state i) = true := by
      simpa [stateWellTyped, List.all_eq_true] using hwt
    have h1 := hall.2 1 (by simp)
    norm_num [schemaFieldOk] at h1
    cases hv : fieldAt state 1 with
    | str s =>
      by_cases hs : s = "" <;>
        simp [parseStateVector, parseCallsign, parseStateVector_spec, hwt, hv, hs,
          Except.toOption]
    | null =>
      simp [parseStateVector, parseCallsign, parseStateVector_spec, hwt, hv,
        Except.toOption]
    | num q =>
      rw [hv] at h1
      simp [JsonValue.isStr, JsonValue.isNull] at h1
    | bool b =>
      rw [hv] at h1
      simp [JsonValue.isStr, JsonValue.isNull] at h1
    | undef =>
      rw [hv] at h1
      simp [JsonValue.isStr, JsonValue.isNull] at h1

/-- Witness for the amended C1: a concrete schema conforming record on which
the parser and the specification contract agree, the callsign trimmed. -/
theorem parseStateVector_silently_coerces_witness :
    stateWellTyped goodRecord = true ∧
    parseStateVector goodRecord = (parseStateVector_spec goodRecord).toOption :=
  ⟨by decide, (parseStateVector_silently_coerces goodRecord).2 (by decide)⟩

/-- C6: with the instantaneous vertical rate branch not firing (airborne,
vertical rate present and not below the critical threshold), the altitude
drop derivative check emits a result exactly when the history holds at least
two samples, both barometric altitudes are present, the time delta in
minutes between the current state and the second most recent sample is
strictly positive, and the altitude change in feet divided by that delta
lies below minus 3000; every emitted result is a high severity altitude
drop. -/
theorem detectAltitudeAnomaly_drop_iff (aircraft : Aircraft)
    (history : List Aircraft) (hg : aircraft.on_ground = false) (vr : ℚ)
    (hvr : aircraft.vertical_rate = some vr)
    (hnr : ¬ vr * (19685 / 100 : ℚ) < CRITICAL_VERTICAL_RATE_FPM) :
    ((detectAltitudeAnomaly aircraft history).isSome = true ↔
      ∃ previousState alt prevAlt,
        2 ≤ history.length ∧
        history.get? (history.length - 2) = some previousState ∧
        aircraft.baro_altitude = some alt ∧
        previousState.baro_altitude = some prevAlt ∧
        0 < (aircraft.last_contact - previousState.last_contact) / 60 ∧
        ((alt - prevAlt) * (3281 / 1000 : ℚ)) /
            ((aircraft.last_contact - previousState.last_contact) / 60) <
          RAPID_ALTITUDE_DROP_FT_PER_MIN) ∧
    (∀ x, detectAltitudeAnomaly aircraft history = some x →
      x.type = AnomalyType.altitude_drop ∧ x.severity = Severity.high) := by
  unfold detectAltitudeAnomaly
  rw [hg, hvr]
  simp only [Bool.false_eq_true, if_false]
  rw [if_neg hnr]
  split
  next hl =>
    split
    next _ _ alt ps hb hget =>
      split
      next _ palt hpb =>
        split
        next htc =>
          split
          next hrc =>
            refine ⟨?_, ?_⟩
            · simp only [Option.isSome_some, true_iff]
              exact ⟨ps, alt, palt, hl, hget, hb, hpb, htc, hrc⟩
            · intro x hx
              injection hx with he
              subst he
              exact ⟨rfl, rfl⟩
          next hrc =>
            refine ⟨?_, fun x hx => by cases hx⟩
            simp only [Option.isSome_none, Bool.false_eq_true, false_iff]
            rintro ⟨ps', alt', palt', -, hget', hb', hpb', -, hrc'⟩
            rw [hget] at hget'
            injection hget' with he
            subst he
            rw [hb] at hb'
            injection hb' with he2
            subst he2
            rw [hpb] at hpb'
            injection hpb' with he3
            subst he3
            exact hrc hrc'
        next htc =>
          refine ⟨?_, fun x hx => by cases hx⟩
          simp only [Option.isSome_none, Bool.false_eq_true, false_iff]
          rintro ⟨ps', alt', palt', -, hget', hb', hpb', htc', -⟩
          rw [hget] at hget'
          injection hget' with he
          subst he
          exact htc htc'
      next _ hpb =>
        refine ⟨?_, fun x hx => by cases hx⟩
        simp only [Option.isSome_none, Bool.false_eq_true, false_iff]
        rintro ⟨ps', alt', palt', -, hget', hb', hpb', -⟩
        rw [hget] at hget'
        injection hget' with he
        subst he
        rw [hpb] at hpb'
        cases hpb'
    next _ _ hno =>
      refine ⟨?_, fun x hx => by cases hx⟩
      simp only [Option.isSome_none, Bool.false_eq_true, false_iff]
      rintro ⟨ps', alt', palt', -, hget', hb', -⟩
      exact hno alt' ps' hb' hget'
  next hl =>
    refine ⟨?_, fun x hx => by cases hx⟩
    simp only [Option.isSome_none, Bool.false_eq_true, false_iff]
    rintro ⟨ps', alt', palt', h2, -⟩
    exact hl h2

theorem detectAltitudeAnomaly_not_emergency {a : Aircraft} {h : List Aircraft}
    {x : FlightAnomaly} (hx : detectAltitudeAnomaly a h = some x) :
    ¬ x.type = AnomalyType.emergency_squawk := by
  simp only [detectAltitudeAnomaly] at hx
  repeat' split at hx
  all_goals try simp_all
  all_goals (subst hx; simp)

theorem detectHoldingPattern_not_emergency {a : Aircraft} {h : List Aircraft}
    {x : FlightAnomaly} (hx : detectHoldingPattern a h = some x) :
    ¬ x.type = AnomalyType.emergency_squawk := by
  simp only [detectHoldingPattern] at hx
  repeat' split at hx
  all_goals try simp_all
  all_goals (subst hx; simp)

theorem detectSpeedAnomaly_not_emergency {a : Aircraft} {x : FlightAnomaly}
    (hx : detectSpeedAnomaly a = some x) :
    ¬ x.type = AnomalyType.emergency_squawk := by
  simp only [detectSpeedAnomaly] at hx
  repeat' split at hx
  all_goals try simp_all
  all_goals (subst hx; simp)

theorem detectGoAround_not_emergency {a : Aircraft} {h : List Aircraft}
    {x : FlightAnomaly} (hx : detectGoAround a h = some x) :
    ¬ x.type = AnomalyType.emergency_squawk := by
  simp only [detectGoAround] at hx
  repeat' split at hx
  all_goals try simp_all
  all_goals (subst hx; simp)

theorem detectEmergencySquawk_eq_none {a : Aircraft}
    (hs : ∀ code, a.squawk = some code → EMERGENCY_SQUAWKS code = none) :
    detectEmergencySquawk a = none := by
  unfold detectEmergencySquawk
  cases h : a.squawk with
  | none => rfl
  | some code =>
    by_cases hc : code = ""
    · simp [hc]
    · simp [hc, hs code h]

theorem detectAnomalies_fst_cases (now : ℚ) (m : HistoryMap) (a : Aircraft) :
    (detectAnomalies now m a).1 = [] ∨
    (detectAnomalies now m a).1 =
      runDetectors a (addToHistory now (getHistory m a.icao24) a) := by
  unfold detectAnomalies
  cases a.latitude <;> cases a.longitude <;> simp

/-- C3: an aircraft squawking 7500, 7600 or 7700 with a valid position, all
other optional fields absent and no prior history yields exactly one anomaly,
of type emergency squawk and critical severity; an aircraft whose squawk is
absent or outside the emergency table never yields an emergency squawk
anomaly. -/
theorem emergency_squawk_detection (now : ℚ) (m : HistoryMap) (aircraft : Aircraft) :
    (∀ code lat lon,
      aircraft.squawk = some code → code ∈ ["7500", "7600", "7700"] →
      aircraft.latitude = some lat → aircraft.longitude = some lon →
      aircraft.velocity = none → aircraft.vertical_rate = none →
      getHistory m aircraft.icao24 = [] →
      (detectAnomalies now m aircraft).1 =
        [{ flight_icao24 := aircraft.icao24, callsign := aircraft.callsign,
           type := AnomalyType.emergency_squawk, severity := Severity.critical,
           location := (lat, lon) }]) ∧
    ((∀ code, aircraft.squawk = some code → EMERGENCY_SQUAWKS code = none) →
      ∀ x ∈ (detectAnomalies now m aircraft).1,
        ¬ x.type = AnomalyType.emergency_squawk) := by
  constructor
  · intro code lat lon hsq hmem hlat hlon hvel hvr hhist
    have hnew : addToHistory now (getHistory m aircraft.icao24) aircraft =
        [{ aircraft with last_contact := now }] := by
      rw [hhist]
      simp [addToHistory, HISTORY_RETENTION_MS, HISTORY_MAX_SIZE]
    have hrun : (detectAnomalies now m aircraft).1 =
        runDetectors aircraft
          (addToHistory now (getHistory m aircraft.icao24) aircraft) := by
      unfold detectAnomalies
      rw [hlat, hlon]
    rw [hrun, hnew]
    have he : detectEmergencySquawk aircraft =
        some { flight_icao24 := aircraft.icao24, callsign := aircraft.callsign,
               type := AnomalyType.emergency_squawk, severity := Severity.critical,
               location := (lat, lon) } := by
      simp only [List.mem_cons, List.mem_singleton, List.not_mem_nil, or_false] at hmem
      rcases hmem with rfl | rfl | rfl <;>
        simp [detectEmergencySquawk, hsq, EMERGENCY_SQUAWKS, hlat, hlon]
    have ha : detectAltitudeAnomaly aircraft [{ aircraft with last_contact := now }] = none := by
      cases hog : aircraft.on_ground <;> simp [detectAltitudeAnomaly, hvr, hog]
    have hh : detectHoldingPattern aircraft [{ aircraft with last_contact := now }] = none := by
      simp [detectHoldingPattern]
    have hs2 : detectSpeedAnomaly aircraft = none := by
      cases hog : aircraft.on_ground <;> simp [detectSpeedAnomaly, hvel, hog]
    have hga : detectGoAround aircraft [{ aircraft with last_contact := now }] = none := by
      simp [detectGoAround]
    simp [runDetectors, he, ha, hh, hs2, hga]
  · intro hnone x hxmem
    rcases detectAnomalies_fst_cases now m aircraft with hc | hc
    · rw [hc] at hxmem
      cases hxmem
    · rw [hc] at hxmem
      have hemv : detectEmergencySquawk aircraft = none :=
        detectEmergencySquawk_eq_none hnone
      simp [runDetectors, hemv, List.mem_filterMap] at hxmem
      rcases hxmem with h2 | h3 | h4 | h5
      · exact detectAltitudeAnomaly_not_emergency h2.symm
      · exact detectHoldingPattern_not_emergency h3.symm
      · exact detectSpeedAnomaly_not_emergency h4.symm
      · exact detectGoAround_not_emergency h5.symm

/-- Witness for C3: the emergency state yields exactly the one critical
emergency squawk anomaly, the ordinary state yields no emergency squawk
anomaly. -/
theorem emergency_squawk_detection_witness :
    (detectAnomalies 1000 [] squawkEmergencyState).1 =
      [{ flight_icao24 := "ade4f7", callsign := none,
         type := AnomalyType.emergency_squawk, severity := Severity.critical,
         location := (40, -75) }] ∧
    (∀ x ∈ (detectAnomalies 1000 [] squawkOrdinaryState).1,
      ¬ x.type = AnomalyType.emergency_squawk) := by
  constructor
  · exact (emergency_squawk_detection 1000 [] squawkEmergencyState).1 "7700" 40 (-75)
      rfl (by decide) rfl rfl rfl rfl rfl
  · refine (emergency_squawk_detection 1000 [] squawkOrdinaryState).2 ?_
    intro code hc
    have h12 : code = "1200" := by injection hc.symm
    subst h12
    rfl

/-- Witness for C6: a concrete two sample history in which the derivative
check fires as a high severity altitude drop. -/
theorem detectAltitudeAnomaly_drop_iff_witness :
    ∃ x, detectAltitudeAnomaly dropCurrentState
        [dropPreviousState, dropCurrentState] = some x ∧
      x.type = AnomalyType.altitude_drop ∧ x.severity = Severity.high := by
  have h := detectAltitudeAnomaly_drop_iff dropCurrentState
    [dropPreviousState, dropCurrentState] rfl 0 rfl
    (by norm_num [CRITICAL_VERTICAL_RATE_FPM])
  have hs : (detectAltitudeAnomaly dropCurrentState
      [dropPreviousState, dropCurrentState]).isSome = true := by
    refine h.1.mpr ⟨dropPreviousState, 1000, 3000, ?_, ?_, ?_, ?_, ?_, ?_⟩
    · norm_num
    · rfl
    · rfl
    · rfl
    · norm_num [dropCurrentState, dropPreviousState, blankAircraft]
    · norm_num [dropCurrentState, dropPreviousState, blankAircraft,
        RAPID_ALTITUDE_DROP_FT_PER_MIN]
  obtain ⟨x, hx⟩ := Option.isSome_iff_exists.mp hs
  exact ⟨x, hx, h.2 x hx⟩

theorem filter_orderedInsert_ne (x : FlightAnomaly) (l : List FlightAnomaly)
    (s : Severity) (hx : (x.severity == s) = false) :
    (List.orderedInsert severityLE x l).filter (fun y => y.severity == s) =
      l.filter (fun y => y.severity == s) := by
  induction l with
  | nil => simp [List.orderedInsert, hx]
  | cons b l ih =>
    by_cases hle : severityLE x b
    · simp [List.orderedInsert, hle, List.filter_cons, hx]
    · simp [List.orderedInsert, hle, List.filter_cons, hx, ih]

theorem filter_orderedInsert_eq (x : FlightAnomaly) (l : List FlightAnomaly)
    (s : Severity) (hx : (x.severity == s) = true) :
    (List.orderedInsert severityLE x l).filter (fun y => y.severity == s) =
      x :: l.filter (fun y => y.severity == s) := by
  have hxs : x.severity = s := by simpa using hx
  induction l with
  | nil => simp [List.orderedInsert, hx]
  | cons b l ih =>
    by_cases hle : severityLE x b
    · simp [List.orderedInsert, hle, List.filter_cons, hx]
    · cases hbs : (b.severity == s) with
      | true =>
        exfalso
        have hbs' : b.severity = s := by simpa using hbs
        exact hle (le_of_eq (by rw [hxs, hbs']))
      | false =>
        simp [List.orderedInsert, hle, List.filter_cons, hbs, ih]

theorem filter_insertionSort (l : List FlightAnomaly) (s : Severity) :
    (List.insertionSort severityLE l).filter (fun y => y.severity == s) =
      l.filter (fun y => y.severity == s) := by
  induction l with
  | nil => rfl
  | cons a l ih =>
    rw [List.insertionSort]
    cases ha : (a.severity == s) with
    | true =>
      rw [filter_orderedInsert_eq a _ s ha, ih]
      simp [List.filter_cons, ha]
    | false =>
      rw [filter_orderedInsert_ne a _ s ha, ih]
      simp [List.filter_cons, ha]

/-- C9: the batch output is a permutation of the anomalies accumulated over
the aircraft in order, sorted ascending by severity rank, so critical before
high before medium before low, and the sort is stable: for every severity
the subsequence of anomalies of that severity is exactly the accumulated
subsequence in its original order. -/
theorem detectAnomaliesBatch_sorted_stable (now : ℚ) (m : HistoryMap)
    (aircraftList : List Aircraft) :
    ((detectAnomaliesBatch now m aircraftList).1).Perm
      ((batchCollect now m aircraftList).1) ∧
    List.Sorted severityLE (detectAnomaliesBatch now m aircraftList).1 ∧
    ∀ s, (detectAnomaliesBatch now m aircraftList).1.filter
        (fun y => y.severity == s) =
      (batchCollect now m aircraftList).1.filter (fun y => y.severity == s) := by
  refine ⟨?_, ?_, fun s => ?_⟩
  · exact List.perm_insertionSort severityLE _
  · exact List.sorted_insertionSort severityLE _
  · exact filter_insertionSort _ s

/-- C7: a 429 sets the cooldown deadline sixty seconds ahead and is absorbed
as data rather than an error: the call returns the cached payload, fresh or
stale, or the empty list, and leaves the cache untouched; every call issued
while the deadline has not passed performs no network request and returns
the cached payload if a fresh or stale entry exists, else the empty list; a
call issued once the deadline has passed and not served fresh from cache
reaches the network again. -/
theorem backoff_suppresses_network (st : ClientState) (now now' : ℚ)
    (outcome' : FetchOutcome) (hb : st.backoffUntil ≤ now)
    (hnf : isFresh (getCached st "all_states" now) = false) :
    (getAllStates st now FetchOutcome.status429).state.backoffUntil =
      now + BACKOFF_SECONDS * 1000 ∧
    (getAllStates st now FetchOutcome.status429).payload =
      cachedData (getCached st "all_states" now) ∧
    (getAllStates st now FetchOutcome.status429).state.responseCache =
      st.responseCache ∧
    (now' < now + BACKOFF_SECONDS * 1000 →
      (getAllStates (getAllStates st now FetchOutcome.status429).state now'
          outcome').network = false ∧
      (getAllStates (getAllStates st now FetchOutcome.status429).state now'
          outcome').payload =
        cachedData (getCached (getAllStates st now FetchOutcome.status429).state
          "all_states" now')) ∧
    (now + BACKOFF_SECONDS * 1000 ≤ now' →
      isFresh (getCached (getAllStates st now FetchOutcome.status429).state
        "all_states" now') = false →
      (getAllStates (getAllStates st now FetchOutcome.status429).state now'
        outcome').network = true) := by
  have hr : getAllStates st now FetchOutcome.status429 =
      { payload := cachedData (getCached st "all_states" now),
        state := { st with backoffUntil := now + BACKOFF_SECONDS * 1000 },
        network := true } := by
    simp only [getAllStates]
    rw [hnf]
    simp only [Bool.false_eq_true, if_false]
    rw [if_neg (not_lt.mpr hb)]
  rw [hr]
  refine ⟨rfl, rfl, rfl, ?_, ?_⟩
  · intro hlt
    simp only [getAllStates]
    cases hf : isFresh (getCached
        { st with backoffUntil := now + BACKOFF_SECONDS * 1000 }
        "all_states" now') with
    | true => simp [hf]
    | false => simp [hf, hlt]
  · intro hge hnf2
    simp only [getAllStates]
    rw [hnf2]
    simp only [Bool.false_eq_true, if_false]
    rw [if_neg (not_lt.mpr hge)]
    cases outcome' with
    | okStates raw =>
      cases hmm : List.mapM.loop parseStateVector raw [] <;> simp [hmm]
    | status429 => rfl
    | httpError => rfl
    | netError => rfl
    | okNull => rfl

/-- Witness for C7: from an empty cache at time zero, a 429 sets the
deadline, a call at half the cooldown returns empty without touching the
network, and a later call past the deadline reaches the network. -/
theorem backoff_suppresses_network_witness :
    (getAllStates ⟨[], 0, 0⟩ 0 FetchOutcome.status429).state.backoffUntil =
      0 + BACKOFF_SECONDS * 1000 ∧
    (getAllStates ⟨[], 0, 0⟩ 0 FetchOutcome.status429).payload =
      cachedData (getCached ⟨[], 0, 0⟩ "all_states" 0) ∧
    (getAllStates ⟨[], 0, 0⟩ 0 FetchOutcome.status429).state.responseCache =
      (⟨[], 0, 0⟩ : ClientState).responseCache ∧
    ((30000 : ℚ) < 0 + BACKOFF_SECONDS * 1000 →
      (getAllStates (getAllStates ⟨[], 0, 0⟩ 0 FetchOutcome.status429).state 30000
          FetchOutcome.httpError).network = false ∧
      (getAllStates (getAllStates ⟨[], 0, 0⟩ 0 FetchOutcome.status429).state 30000
          FetchOutcome.httpError).payload =
        cachedData (getCached (getAllStates ⟨[], 0, 0⟩ 0 FetchOutcome.status429).state
          "all_states" 30000)) ∧
    (0 + BACKOFF_SECONDS * 1000 ≤ (30000 : ℚ) →
      isFresh (getCached (getAllStates ⟨[], 0, 0⟩ 0 FetchOutcome.status429).state
        "all_states" 30000) = false →
      (getAllStates (getAllStates ⟨[], 0, 0⟩ 0 FetchOutcome.status429).state 30000
        FetchOutcome.httpError).network = true) :=
  backoff_suppresses_network ⟨[], 0, 0⟩ 0 30000 FetchOutcome.httpError
    (le_refl 0) rfl

theorem find?_map_replace (k : String) (e : CacheEntry) :
    ∀ l : List (String × CacheEntry), l.any (fun p => p.1 = k) = true →
      (l.map (fun p => if p.1 = k then (k, e) else p)).find?
        (fun p => p.1 = k) = some (k, e) := by
  intro l
  induction l with
  | nil => intro h; simp at h
  | cons p l ih =>
    intro h
    by_cases hp : p.1 = k
    · simp [hp]
    · simp only [List.any_cons] at h
      have hl : l.any (fun p => p.1 = k) = true := by simpa [hp] using h
      simp [hp, ih hl]

theorem find?_append_new (k : String) (e : CacheEntry) :
    ∀ l : List (String × CacheEntry), l.any (fun p => p.1 = k) = false →
      (l ++ [(k, e)]).find? (fun p => p.1 = k) = some (k, e) := by
  intro l
  induction l with
  | nil => intro h; simp
  | cons p l ih =>
    intro h
    simp only [List.any_cons] at h
    have hp : ¬ p.1 = k := by
      intro hk
      simp [hk] at h
    have hl : l.any (fun p => p.1 = k) = false := by simpa [hp] using h
    simp [hp, ih hl]

theorem getCached_setCache (st : ClientState) (k : String)
    (d : List RawAircraft) (now : ℚ) :
    getCached (setCache st k d now) k now = some (d, true) := by
  unfold getCached setCache
  cases ha : st.responseCache.any (fun p => p.1 = k) with
  | true =>
    simp only [ha, if_true]
    rw [find?_map_replace k ⟨d, now⟩ st.responseCache ha]
    norm_num [CACHE_TTL_MS]
  | false =>
    simp only [ha, Bool.false_eq_true, if_false]
    rw [find?_append_new k ⟨d, now⟩ st.responseCache ha]
    norm_num [CACHE_TTL_MS]

/-- C8: a fetch that reaches the network and succeeds writes the parsed
response into the response cache as a fresh entry, resets the consecutive
failure counter, and leaves a deadline that can no longer suppress any later
call; the same holds for the all states variant, whose fixed deadline is
also left unable to suppress later calls; a call served from cache, fresh or
during backoff, leaves the whole client state unchanged. -/
theorem fetch_gate_success_effects (st : ClientState) (icao24List : List String)
    (now : ℚ) (raw : List (List JsonValue)) (result : List RawAircraft)
    (outcome : FetchOutcome) :
    (st.backoffUntil ≤ now →
      isFresh (getCached st (icaoCacheKey icao24List) now) = false →
      raw.mapM parseStateVector = some result →
      (getStatesByIcao24 st icao24List now (FetchOutcome.okStates raw)).network =
        true ∧
      (getStatesByIcao24 st icao24List now (FetchOutcome.okStates raw)).payload =
        result ∧
      getCached (getStatesByIcao24 st icao24List now
          (FetchOutcome.okStates raw)).state (icaoCacheKey icao24List) now =
        some (result, true) ∧
      (getStatesByIcao24 st icao24List now
        (FetchOutcome.okStates raw)).state.consecutiveFailures = 0 ∧
      (getStatesByIcao24 st icao24List now
        (FetchOutcome.okStates raw)).state.backoffUntil = st.backoffUntil ∧
      (∀ later, now ≤ later →
        ¬ later < (getStatesByIcao24 st icao24List now
          (FetchOutcome.okStates raw)).state.backoffUntil)) ∧
    (st.backoffUntil ≤ now →
      isFresh (getCached st "all_states" now) = false →
      raw.mapM parseStateVector = some result →
      (getAllStates st now (FetchOutcome.okStates raw)).network = true ∧
      getCached (getAllStates st now (FetchOutcome.okStates raw)).state
        "all_states" now = some (result, true) ∧
      (getAllStates st now (FetchOutcome.okStates raw)).state.backoffUntil =
        st.backoffUntil ∧
      (∀ later, now ≤ later →
        ¬ later < (getAllStates st now
          (FetchOutcome.okStates raw)).state.backoffUntil)) ∧
    (isFresh (getCached st (icaoCacheKey icao24List) now) = true →
      (getStatesByIcao24 st icao24List now outcome).state = st ∧
      (getStatesByIcao24 st icao24List now outcome).network = false) ∧
    (isFresh (getCached st (icaoCacheKey icao24List) now) = false →
      now < st.backoffUntil →
      (getStatesByIcao24 st icao24List now outcome).state = st ∧
      (getStatesByIcao24 st icao24List now outcome).network = false) := by
  refine ⟨?_, ?_, ?_, ?_⟩
  · intro hb hnf hparse
    have hred : getStatesByIcao24 st icao24List now (FetchOutcome.okStates raw) =
        { payload := result,
          state := setCache { st with consecutiveFailures := 0 }
            (icaoCacheKey icao24List) result now,
          network := true } := by
      simp only [getStatesByIcao24]
      rw [hnf]
      simp only [Bool.false_eq_true, if_false]
      rw [if_neg (not_lt.mpr hb)]
      simp [show List.mapM.loop parseStateVector raw [] = some result from hparse]
    rw [hred]
    refine ⟨rfl, rfl, getCached_setCache _ _ _ _, by simp [setCache], by simp [setCache], ?_⟩
    intro later hlater
    have : (setCache { st with consecutiveFailures := 0 }
        (icaoCacheKey icao24List) result now).backoffUntil = st.backoffUntil := by
      simp [setCache]
    rw [this]
    exact not_lt.mpr (le_trans hb hlater)
  · intro hb hnf hparse
    have hred : getAllStates st now (FetchOutcome.okStates raw) =
        { payload := result,
          state := setCache st "all_states" result now,
          network := true } := by
      simp only [getAllStates]
      rw [hnf]
      simp only [Bool.false_eq_true, if_false]
      rw [if_neg (not_lt.mpr hb)]
      simp [show List.mapM.loop parseStateVector raw [] = some result from hparse]
    rw [hred]
    refine ⟨rfl, getCached_setCache _ _ _ _, by simp [setCache], ?_⟩
    intro later hlater
    have : (setCache st "all_states" result now).backoffUntil = st.backoffUntil := by
      simp [setCache]
    rw [this]
    exact not_lt.mpr (le_trans hb hlater)
  · intro hf
    simp only [getStatesByIcao24]
    rw [hf]
    exact ⟨rfl, rfl⟩
  · intro hnf hlt
    simp only [getStatesByIcao24]
    rw [hnf]
    simp only [Bool.false_eq_true, if_false]
    rw [if_pos hlt]
    exact ⟨rfl, rfl⟩

/-- Witness for C8: a successful fetch from an empty client state writes the
fresh cache entry, resets the failure counter and leaves no suppressing
deadline. -/
theorem fetch_gate_success_effects_witness :
    (getStatesByIcao24 ⟨[], 0, 0⟩ [] 0 (FetchOutcome.okStates [])).network =
      true ∧
    (getStatesByIcao24 ⟨[], 0, 0⟩ [] 0 (FetchOutcome.okStates [])).payload = [] ∧
    getCached (getStatesByIcao24 ⟨[], 0, 0⟩ [] 0
        (FetchOutcome.okStates [])).state (icaoCacheKey []) 0 =
      some ([], true) ∧
    (getStatesByIcao24 ⟨[], 0, 0⟩ [] 0
      (FetchOutcome.okStates [])).state.consecutiveFailures = 0 ∧
    (getStatesByIcao24 ⟨[], 0, 0⟩ [] 0
      (FetchOutcome.okStates [])).state.backoffUntil =
      (⟨[], 0, 0⟩ : ClientState).backoffUntil ∧
    (∀ later, (0 : ℚ) ≤ later →
      ¬ later < (getStatesByIcao24 ⟨[], 0, 0⟩ [] 0
        (FetchOutcome.okStates [])).state.backoffUntil) :=
  (fetch_gate_success_effects ⟨[], 0, 0⟩ [] 0 [] [] FetchOutcome.httpError).1
    (le_refl 0) rfl rfl

/-- Witness for C4 at a concrete window and insert. -/
theorem addToHistory_bounded_witness :
    (addToHistory 2000 [blankAircraft "old01"] (blankAircraft "new01")).length ≤
      HISTORY_MAX_SIZE ∧
    (∀ a ∈ addToHistory 2000 [blankAircraft "old01"] (blankAircraft "new01"),
      2000 - HISTORY_RETENTION_MS / 1000 < a.last_contact) ∧
    (addToHistory 2000 [blankAircraft "old01"] (blankAircraft "new01")) <:+
      (([blankAircraft "old01"] ++
          [{ blankAircraft "new01" with last_contact := 2000 }]).filter
        (fun a => 2000 - HISTORY_RETENTION_MS / 1000 < a.last_contact)) :=
  addToHistory_bounded 2000 [blankAircraft "old01"] (blankAircraft "new01")

/-- Witness for C9 at a concrete batch. -/
theorem detectAnomaliesBatch_sorted_stable_witness :
    ((detectAnomaliesBatch 1000 []
        [squawkEmergencyState, squawkOrdinaryState]).1).Perm
      ((batchCollect 1000 [] [squawkEmergencyState, squawkOrdinaryState]).1) ∧
    List.Sorted severityLE (detectAnomaliesBatch 1000 []
      [squawkEmergencyState, squawkOrdinaryState]).1 ∧
    ∀ s, (detectAnomaliesBatch 1000 []
        [squawkEmergencyState, squawkOrdinaryState]).1.filter
        (fun y => y.severity == s) =
      (batchCollect 1000 [] [squawkEmergencyState, squawkOrdinaryState]).1.filter
        (fun y => y.severity == s) :=
  detectAnomaliesBatch_sorted_stable 1000 []
    [squawkEmergencyState, squawkOrdinaryState]

/-- Witness for C10 at a concrete anomaly list. -/
theorem getAnomalyStats_consistent_witness :
    (getAnomalyStats sampleAnomalies).total = sampleAnomalies.length ∧
    (getAnomalyStats sampleAnomalies).critical + (getAnomalyStats sampleAnomalies).high +
        (getAnomalyStats sampleAnomalies).medium + (getAnomalyStats sampleAnomalies).low =
      (getAnomalyStats sampleAnomalies).total ∧
    ∀ t, (getAnomalyStats sampleAnomalies).byType t =
      sampleAnomalies.countP (fun a => a.type == t) :=
  getAnomalyStats_consistent sampleAnomalies

end AirSenti
